import Mathlib

/-!
Shallow embedding of the react-deep demo snippets.

The repository is a study collection; its executable parts are four small
pieces of code, embedded here from the source:

* `useThemeContext` and `ThemeContext` (src/unnamed/part_004): a context
  created with default value `null` and a hook that throws when the context
  value is strictly `undefined`.
* the async form `action` and the `App` component (src/unnamed/part_003):
  a one-second awaited timer, a username-length validation, and a counter
  button whose handler is `setCount(count => count + 1)`.
* `DataProvider` (src/unnamed/part_000): `useState` initialised to
  `This is the data!`, placing the pair `[data, setData]` into a context.
* the data consumer (src/meeting-1/src/contex/one/DataConsumer.js):
  destructures `[data, setData]` from the context and on click calls
  `setData` with a constant string.
-/

namespace ReactDeep

/-- A JavaScript value as the theme-context demo needs it: the distinguished
values `undefined` and `null`, or an ordinary string value. -/
inductive JSVal where
  | undef : JSVal
  | null : JSVal
  | str : String → JSVal
deriving DecidableEq, Repr

/-- `React.useContext` on a context whose `createContext` default is
`default`: the nearest provider value when one is above, else the default. -/
def useContextRead {α : Type} (default : α) (provided : Option α) : α :=
  provided.getD default

/-- Default value of `ThemeContext`: the code is `createContext(null)`
(src/unnamed/part_004 line 18). -/
def themeContextDefault : JSVal := JSVal.null

/-- The message of the error `useThemeContext` throws. -/
def themeErrMsg : String := "useThemeContext must be used with a ThemeContext"

/-- Body of `useThemeContext` (src/unnamed/part_004 lines 20-28), acting on
the value returned by `useContext(ThemeContext)`: throw when that value is
strictly `undefined`, otherwise return it. -/
def useThemeContext (context : JSVal) : Except String JSVal :=
  if context = JSVal.undef then Except.error themeErrMsg
  else Except.ok context

/-- `useThemeContext` as called at a render site: `provider` is the value of
the nearest `ThemeContext.Provider`, `none` when the hook is used outside
any provider (so `useContext` yields the `createContext` default). -/
def useThemeContextAt (provider : Option JSVal) : Except String JSVal :=
  useThemeContext (useContextRead themeContextDefault provider)

/-- The result object the form `action` returns (src/unnamed/part_003). -/
structure ActionResult where
  success : Bool
  message : String
deriving DecidableEq, Repr

/-- The two fields the form in `App` submits: a hidden `id` input and a text
`username` input (src/unnamed/part_003 lines 48-51). -/
structure FormFields where
  username : String
  id : String
deriving DecidableEq, Repr

/-- A repository-authored asynchronous computation: either already settled,
or an await of a `setTimeout`-based timer (duration in milliseconds) the
computation itself created, followed by the rest of the computation. -/
inductive AsyncComp (α : Type) where
  | pure : α → AsyncComp α
  | awaitTimer : Nat → AsyncComp α → AsyncComp α
deriving DecidableEq, Repr

/-- Run an async computation to its settled value (time elapsing). -/
def runAsync {α : Type} : AsyncComp α → α
  | AsyncComp.pure a => a
  | AsyncComp.awaitTimer _ k => runAsync k

/-- Whether the computation awaits a timer of its own anywhere. -/
def awaitsTimer {α : Type} : AsyncComp α → Bool
  | AsyncComp.pure _ => false
  | AsyncComp.awaitTimer _ _ => true

/-- The async form `action` (src/unnamed/part_003 lines 6-22): await
`new Promise(resolve => setTimeout(resolve, 1000))`, then read the two form
fields; when the username has fewer than 3 characters return the failure
object, else the success object with the interpolated message. -/
def action (preState : Option ActionResult) (formData : FormFields) :
    AsyncComp ActionResult :=
  AsyncComp.awaitTimer 1000 (AsyncComp.pure (
    let username := formData.username
    let id := formData.id
    if username.length < 3 then
      { success := false
        message := "Username must be at least 3 characters long" }
    else
      { success := true
        message := "User " ++ id ++ " updated to " ++ username }))

/-- The mutable state `App` holds through framework primitives:
`useState(0)` for the counter and `useActionState(action, undefined)` for
the form (src/unnamed/part_003 lines 26-27). -/
structure AppState where
  count : Nat
  actionState : Option ActionResult
deriving DecidableEq, Repr

/-- `DataProvider` state: `useState` initialised to the string shown
(src/unnamed/part_000 line 7). -/
structure ProviderState where
  data : String
deriving DecidableEq, Repr

/-- All mutable state the repository demos hold, each cell owned by one
framework state hook. -/
structure UIState where
  app : AppState
  provider : ProviderState
deriving DecidableEq, Repr

/-- Initial state: `useState(0)`, `useActionState(action, undefined)`,
`useState` of the initial data string. -/
def initialState : UIState :=
  { app := { count := 0, actionState := none }
    provider := { data := "This is the data!" } }

/-- The `setCount` setter `useState` hands to `App`, applied with an
updater function. -/
def setCount (f : Nat → Nat) (s : UIState) : UIState :=
  { s with app := { s.app with count := f s.app.count } }

/-- The framework update `useActionState` performs when the form action
settles: store the result as the new action state. -/
def setActionState (r : ActionResult) (s : UIState) : UIState :=
  { s with app := { s.app with actionState := some r } }

/-- The `setData` setter `useState` hands to `DataProvider`, called with a
direct value. -/
def setData (d : String) (s : UIState) : UIState :=
  { s with provider := { data := d } }

/-- The value `DataProvider` places in `dataContext`
(src/unnamed/part_000 line 10): the pair `[data, setData]`, which is the
`useState` pair itself, untransformed. -/
def providerValue (s : UIState) : String × (String → UIState → UIState) :=
  (s.provider.data, setData)

/-- The consumer button click (DataConsumer.js lines 12-14): call the
`setData` obtained from the context pair with the constant string. -/
def consumerClick (s : UIState) : UIState :=
  (providerValue s).2 ("Data has changed!") s

/-- The events the repository demos define. -/
inductive RepoOp where
  | render : RepoOp
  | counterClick : RepoOp
  | consumerButtonClick : RepoOp
  | formSubmit : FormFields → RepoOp
deriving DecidableEq, Repr

/-- Effect of each repository event on the state. Rendering reads state
(the JSX shows the count, the data and the action message) and changes
nothing; each click or submit goes through a framework setter. -/
def runOp : RepoOp → UIState → UIState
  | RepoOp.render, s => s
  | RepoOp.counterClick, s => setCount (fun count => count + 1) s
  | RepoOp.consumerButtonClick, s => consumerClick s
  | RepoOp.formSubmit fd, s =>
      setActionState (runAsync (action s.app.actionState fd)) s

end ReactDeep

namespace ReactDeep

/-- C5: clicking the counter button increments the displayed number: for
every state with count `n`, the click handler sets the count to `n + 1`
(and only the count), and leaves every other state cell unchanged. -/
theorem counter_click_increments :
    ∀ s : UIState,
      (runOp RepoOp.counterClick s).app.count = s.app.count + 1 ∧
      (runOp RepoOp.counterClick s).app.actionState = s.app.actionState ∧
      (runOp RepoOp.counterClick s).provider = s.provider := by
  intro s
  exact ⟨rfl, rfl, rfl⟩

/-- C1 (the code at the claimed failing input): called outside any
`ThemeContext.Provider`, the hook receives the `createContext` default
`null`, the `undefined` check does not fire, and the hook returns `null`
instead of throwing the documented error. -/
theorem useThemeContext_outside_provider_no_throw :
    useThemeContextAt none = Except.ok JSVal.null ∧
    useThemeContextAt none ≠ Except.error themeErrMsg := by
  exact ⟨rfl, fun h => Except.noConfusion h⟩

/-- C9: `useThemeContext` throws exactly when the context value is strictly
`undefined`; outside any provider the context value is the default `null`
and the hook returns `null` without throwing; every non-`undefined` value
is returned unchanged. -/
theorem useThemeContext_undef_check_only :
    useThemeContextAt none = Except.ok JSVal.null ∧
    (∀ v : JSVal,
      useThemeContext v =
        if v = JSVal.undef then Except.error themeErrMsg else Except.ok v) ∧
    useThemeContext JSVal.undef = Except.error themeErrMsg := by
  exact ⟨rfl, fun v => rfl, rfl⟩

/-- C2 (counterexample): the repository-authored `action` inspects its
input and returns a failure result of its own design: on the two-character
username `ab` it settles to `success := false` with its own message. -/
theorem action_returns_own_failure_result :
    runAsync (action none { username := "ab", id := "1" }) =
      { success := false
        message := "Username must be at least 3 characters long" } := by
  rfl

/-- C2 (amended): the repository does author failure handling: `action`
settles to its failure result exactly when the submitted username has
fewer than 3 characters, and `useThemeContext` throws its error exactly
when the context value is `undefined`; these are the two such paths the
embedded operations contain. -/
theorem repo_failure_paths :
    (∀ (pre : Option ActionResult) (fd : FormFields),
      (runAsync (action pre fd)).success = false ↔ fd.username.length < 3) ∧
    (∀ v : JSVal,
      useThemeContext v = Except.error themeErrMsg ↔ v = JSVal.undef) := by
  constructor
  · intro pre fd
    by_cases h : fd.username.length < 3 <;>
      simp [action, runAsync, h]
  · intro v
    by_cases h : v = JSVal.undef <;>
      simp [useThemeContext, h]

/-- C3 (counterexample): `App` has a contract beyond rendering a value and
calling a framework setter on click: its form action performs a validation
step, distinguishing a two-character username from a three-character one. -/
theorem app_form_action_validates :
    (runAsync (action none { username := "ab", id := "1" })).success = false ∧
    (runAsync (action none { username := "abc", id := "1" })).success = true := by
  exact ⟨rfl, rfl⟩

/-- C3 (amended): the counter and consumer demos are thin wrappers whose
click handlers equal a single framework setter call, but the form action in
`App` additionally performs one validation step: it succeeds exactly when
the username has at least 3 characters. -/
theorem components_thin_except_action_validation :
    (∀ s : UIState,
      runOp RepoOp.counterClick s = setCount (fun count => count + 1) s) ∧
    (∀ s : UIState,
      runOp RepoOp.consumerButtonClick s = setData ("Data has changed!") s) ∧
    (∀ (pre : Option ActionResult) (fd : FormFields),
      (runAsync (action pre fd)).success = true ↔ 3 ≤ fd.username.length) := by
  refine ⟨fun s => rfl, fun s => rfl, fun pre fd => ?_⟩
  by_cases h : fd.username.length < 3 <;>
    simp [action, runAsync, h] <;> omega

/-- C4: the Provider/Consumer demo is a pure pass-through: reading the
context below `DataProvider` yields exactly the pair the provider placed
there, whatever the `createContext` default; that pair is the `useState`
pair itself, the data unchanged and the setter untransformed. -/
theorem provider_pass_through :
    ∀ (dflt : String × (String → UIState → UIState)) (s : UIState),
      useContextRead dflt (some (providerValue s)) = providerValue s ∧
      (providerValue s).1 = s.provider.data ∧
      (providerValue s).2 = setData := by
  intro dflt s
  exact ⟨rfl, rfl, rfl⟩

/-- C6: every repository event either leaves the state unchanged (render)
or equals one framework setter applied functionally; each setter changes
only the state cell its hook owns, so no state value is mutated outside a
setter call. -/
theorem state_changes_only_via_setters :
    (∀ s : UIState, runOp RepoOp.render s = s) ∧
    (∀ s : UIState,
      runOp RepoOp.counterClick s = setCount (fun count => count + 1) s ∧
      (runOp RepoOp.counterClick s).provider = s.provider ∧
      (runOp RepoOp.counterClick s).app.actionState = s.app.actionState) ∧
    (∀ s : UIState,
      runOp RepoOp.consumerButtonClick s = setData ("Data has changed!") s ∧
      (runOp RepoOp.consumerButtonClick s).app = s.app) ∧
    (∀ (fd : FormFields) (s : UIState),
      runOp (RepoOp.formSubmit fd) s =
        setActionState (runAsync (action s.app.actionState fd)) s ∧
      (runOp (RepoOp.formSubmit fd) s).provider = s.provider ∧
      (runOp (RepoOp.formSubmit fd) s).app.count = s.app.count) := by
  exact ⟨fun s => rfl,
        fun s => ⟨rfl, rfl, rfl⟩,
        fun s => ⟨rfl, rfl⟩,
        fun fd s => ⟨rfl, rfl, rfl⟩⟩

/-- C7 (counterexample): a repository-authored function is an asynchronous
task awaiting a timer it created itself: `action` awaits its own
`setTimeout`-based promise before doing anything else. -/
theorem action_awaits_own_timer :
    awaitsTimer (action none { username := "abc", id := "1" }) = true := by
  rfl

/-- C7 (amended): the repository introduces no threads, locks, shared
mutable resources, or cancellation logic of its own, but the form `action`
is an asynchronous function of its own: on every input it awaits a 1000 ms
timer it creates itself and then settles purely; the other repository
events are synchronous state functions. -/
theorem only_action_is_async :
    (∀ (pre : Option ActionResult) (fd : FormFields),
      action pre fd =
        AsyncComp.awaitTimer 1000 (AsyncComp.pure (runAsync (action pre fd)))) ∧
    (∀ (pre : Option ActionResult) (fd : FormFields),
      awaitsTimer (action pre fd) = true) := by
  exact ⟨fun pre fd => rfl, fun pre fd => rfl⟩

/-- C8: `action` never depends on its prior-state argument, settles to the
fixed failure object exactly when the submitted username has fewer than 3
characters, and otherwise to the success object whose message interpolates
the submitted id and username. -/
theorem action_result_spec :
    (∀ (pre pre2 : Option ActionResult) (fd : FormFields),
      action pre fd = action pre2 fd) ∧
    (∀ (pre : Option ActionResult) (fd : FormFields),
      runAsync (action pre fd) =
        if fd.username.length < 3 then
          { success := false
            message := "Username must be at least 3 characters long" }
        else
          { success := true
            message := "User " ++ fd.id ++ " updated to " ++ fd.username }) := by
  exact ⟨fun pre pre2 fd => rfl, fun pre fd => rfl⟩

/-- C10: the consumer click is idempotent on the shared context data: one
click sets the data to the constant string, a further click changes
nothing, and the value after a click does not depend on the initial data. -/
theorem consumer_click_idempotent :
    ∀ s t : UIState,
      (runOp RepoOp.consumerButtonClick s).provider.data = "Data has changed!" ∧
      runOp RepoOp.consumerButtonClick (runOp RepoOp.consumerButtonClick s) =
        runOp RepoOp.consumerButtonClick s ∧
      (runOp RepoOp.consumerButtonClick s).provider.data =
        (runOp RepoOp.consumerButtonClick t).provider.data := by
  intro s t
  exact ⟨rfl, rfl, rfl⟩

end ReactDeep
